import Mathlib

/-!
Shallow embedding of the Namespace compute provider
(`src/packages/namespace/src/index.ts`).

Effects are made explicit: the process environment is a record of the two
variables the module reads, the token-file read is an oracle
`String → Except String TokenJson` (covering `fs.readFile` + `JSON.parse`),
and each remote call receives a `FetchOutcome` describing what the HTTP
layer produced (a network-level rejection, or a response with its `ok`
flag, status, status text and parsed JSON body).  Thrown JavaScript
`Error`s are modelled as `Except.error` carrying the error message string,
exactly as the source builds them.
-/

/-- Reading an optional string field the way JavaScript coerces it in
truthiness tests: `undefined` and `""` behave alike, so we collapse
`none` to `""`. -/
def jsStr (o : Option String) : String := o.getD ""

/-- JavaScript `a || b` on strings: `b` when `a` is falsy (empty), else `a`. -/
def jsOr (a b : String) : String := if a = "" then b else a

/-- JavaScript `a || b` on numbers: `b` when `a` is `undefined` or `0`
(both falsy), else `a`. -/
def jsOrNum (a : Option Nat) (b : Nat) : Nat :=
  match a with
  | none => b
  | some n => if n = 0 then b else n

/-- Whether `pat` occurs in `s` starting at character index `i`. -/
def strContainsAt (s pat : String) (i : Nat) : Bool :=
  (s.toList.drop i).take pat.toList.length == pat.toList

/-- Index of the first occurrence of `pat` in `s`, when there is one. -/
def firstOcc (s pat : String) : Option Nat :=
  (List.range (s.toList.length + 1)).find? (fun i => strContainsAt s pat i)

/-- JavaScript `String.prototype.includes`: substring test. -/
def includesStr (s pat : String) : Bool := (firstOcc s pat).isSome

/-- `a` occurs in `s` and its first occurrence is strictly before the first
occurrence of `b`. -/
def occursBefore (s a b : String) : Bool :=
  match firstOcc s a, firstOcc s b with
  | some i, some j => i < j
  | _, _ => false

/-- Value of one base64 alphabet character, `none` for anything that is not
in the alphabet (padding included). -/
def b64Val (c : Char) : Option Nat :=
  if 65 ≤ c.toNat ∧ c.toNat ≤ 90 then some (c.toNat - 65)
  else if 97 ≤ c.toNat ∧ c.toNat ≤ 122 then some (c.toNat - 97 + 26)
  else if 48 ≤ c.toNat ∧ c.toNat ≤ 57 then some (c.toNat - 48 + 52)
  else if c = '+' then some 62
  else if c = '/' then some 63
  else none

/-- Strict base64 decoding of a character list into bytes: four-character
groups, padding only in the final group, every length a multiple of four.
Returns `none` on any malformed input. -/
def b64DecodeList : List Char → Option (List Nat)
  | [] => some []
  | a :: b :: c :: d :: rest =>
    match b64Val a, b64Val b with
    | some va, some vb =>
      if c = '=' ∧ d = '=' ∧ rest = [] then
        some [va * 4 + vb / 16]
      else
        match b64Val c with
        | some vc =>
          if d = '=' ∧ rest = [] then
            some [va * 4 + vb / 16, (vb % 16) * 16 + vc / 4]
          else
            match b64Val d with
            | some vd =>
              (b64DecodeList rest).map
                (fun tail =>
                  (va * 4 + vb / 16) :: ((vb % 16) * 16 + vc / 4) ::
                    ((vc % 4) * 64 + vd) :: tail)
            | none => none
        | none => none
    | _, _ => none
  | _ => none

/-- Strict base64 decoding of a string, `none` when the input is not valid
base64.  Bytes are read back as characters. -/
def b64DecodeStr (s : String) : Option String :=
  (b64DecodeList s.toList).map (fun bs => String.mk (bs.map Char.ofNat))

/-- `decodeBase64` from `runCommand` (lines 357-364): empty or absent data
yields `""`; otherwise decode as base64, and on a decoding failure return
the raw undecoded value instead of raising. -/
def decodeBase64 (data : Option String) : String :=
  let d := jsStr data
  if d = "" then ""
  else
    match b64DecodeStr d with
    | some s => s
    | none => d

/-- Parsed contents of a JSON token file (e.g. from nsc login). -/
structure TokenJson where
  bearer_token : Option String := none
deriving Repr, DecidableEq

/-- Result of credential resolution. -/
structure Credentials where
  token : String
deriving Repr, DecidableEq

/-- The two environment variables the module reads. -/
structure ProcEnv where
  NSC_TOKEN : Option String := none
  NSC_TOKEN_FILE : Option String := none
deriving Repr, DecidableEq

/-- `NamespaceConfig` (lines 27-46). -/
structure NamespaceConfig where
  token : Option String := none
  tokenFile : Option String := none
  virtualCpu : Option Nat := none
  memoryMegabytes : Option Nat := none
  machineArch : Option String := none
  os : Option String := none
  documentedPurpose : Option String := none
  destroyReason : Option String := none
  targetContainerName : Option String := none
deriving Repr, DecidableEq

/-- `loadTokenFromFile` (lines 62-69).  `readTokenFile` is the oracle for
`fs.readFile` + `JSON.parse`; a falsy (absent or empty) `bearer_token`
raises. -/
def loadTokenFromFile (readTokenFile : String → Except String TokenJson)
    (filePath : String) : Except String String :=
  match readTokenFile filePath with
  | Except.error e => Except.error e
  | Except.ok tokenJson =>
    if jsStr tokenJson.bearer_token = "" then
      Except.error ("Token file " ++ filePath ++ " does not contain a bearer_token")
    else Except.ok (jsStr tokenJson.bearer_token)

/-- Message of the error thrown when no credential source yields a token. -/
def missingTokenMsg : String :=
  "Missing Namespace token. Provide token in config, set NSC_TOKEN, or set NSC_TOKEN_FILE environment variable (or provide tokenFile in config)."

/-- `getAndValidateCredentials` (lines 78-97): config token, then the
NSC_TOKEN environment variable, then a token file named by
`config.tokenFile` or NSC_TOKEN_FILE. -/
def getAndValidateCredentials (readTokenFile : String → Except String TokenJson)
    (env : ProcEnv) (config : NamespaceConfig) : Except String Credentials :=
  let token0 := jsOr (jsStr config.token) (jsStr env.NSC_TOKEN)
  let step2 : Except String String :=
    if token0 = "" then
      let tokenFile := jsOr (jsStr config.tokenFile) (jsStr env.NSC_TOKEN_FILE)
      if tokenFile ≠ "" then loadTokenFromFile readTokenFile tokenFile
      else Except.ok token0
    else Except.ok token0
  match step2 with
  | Except.error e => Except.error e
  | Except.ok token =>
    if token = "" then Except.error missingTokenMsg
    else Except.ok { token := token }

/-- The `metadata` block of a Namespace API response. -/
structure RespMetadata where
  instanceId : Option String := none
  createdAt : Option String := none
deriving Repr, DecidableEq

/-- The `extendedMetadata` block of a Namespace API response. -/
structure RespExtendedMetadata where
  commandServiceEndpoint : Option String := none
deriving Repr, DecidableEq

/-- One entry of a ListInstances response; the identifier may sit at the
top level or inside `metadata`. -/
structure InstanceData where
  instanceId : Option String := none
  metadata : Option RespMetadata := none
  extendedMetadata : Option RespExtendedMetadata := none
deriving Repr, DecidableEq

/-- Parsed JSON body of a Namespace API response, restricted to the fields
the module reads. -/
structure ResponseData where
  error : Option String := none
  metadata : Option RespMetadata := none
  extendedMetadata : Option RespExtendedMetadata := none
  instances : Option (List InstanceData) := none
  stdout : Option String := none
  stderr : Option String := none
  exitCode : Option Int := none
deriving Repr, DecidableEq

/-- What the HTTP layer produced for one remote call: either `fetch`
itself rejected, or a response arrived with its `ok` flag, status code,
status text and parsed JSON body. -/
inductive FetchOutcome where
  | networkError (msg : String)
  | response (ok : Bool) (status : Nat) (statusText : String) (data : ResponseData)
deriving Repr, DecidableEq

/-- `handleApiErrors` (lines 99-103): a truthy application-level `error`
field raises even under a 2xx status. -/
def handleApiErrors (data : ResponseData) : Except String Unit :=
  if jsStr data.error ≠ "" then
    Except.error ("Namespace API error: " ++ jsStr data.error)
  else Except.ok ()

/-- `fetchNamespace` (lines 105-130), with the HTTP layer replaced by the
given outcome: non-`ok` statuses raise with status and status text, then
the body goes through `handleApiErrors`. -/
def fetchNamespace : FetchOutcome → Except String ResponseData
  | FetchOutcome.networkError msg => Except.error msg
  | FetchOutcome.response ok status statusText data =>
    if ok = false then
      Except.error ("Namespace API error: " ++ toString status ++ " " ++ statusText)
    else
      match handleApiErrors data with
      | Except.error e => Except.error e
      | Except.ok _ => Except.ok data

/-- A JavaScript `Date` value as the module builds them: epoch zero, parsed
from a string, or the current time. -/
inductive DateV where
  | epoch
  | fromString (s : String)
  | now
deriving Repr, DecidableEq

/-- `NamespaceSandbox` (lines 15-22). -/
structure NamespaceSandbox where
  instanceId : String
  name : String
  commandServiceEndpoint : Option String := none
  token : String
  targetContainerName : String
  createdAt : DateV
deriving Repr, DecidableEq

/-- What the lifecycle operations return per instance: the sandbox record
plus its id. -/
structure SandboxPair where
  sandbox : NamespaceSandbox
  sandboxId : String
deriving Repr, DecidableEq

/-- Body of `getById`'s try-block (lines 203-229): raises when the
response carries no truthy `metadata.instanceId`, otherwise builds the
canonical record. -/
def getByIdAttempt (token : String) (config : NamespaceConfig)
    (fo : FetchOutcome) : Except String SandboxPair :=
  match fetchNamespace fo with
  | Except.error e => Except.error e
  | Except.ok responseData =>
    let iid := jsStr (responseData.metadata.bind RespMetadata.instanceId)
    if iid = "" then
      Except.error "Instance data is missing from Namespace response"
    else
      let created := jsStr (responseData.metadata.bind RespMetadata.createdAt)
      let sandbox : NamespaceSandbox :=
        { instanceId := iid
          name := "instance-" ++ iid
          commandServiceEndpoint :=
            responseData.extendedMetadata.bind RespExtendedMetadata.commandServiceEndpoint
          token := token
          targetContainerName := jsOr (jsStr config.targetContainerName) "main-container"
          createdAt := if created ≠ "" then DateV.fromString created else DateV.epoch }
      Except.ok { sandbox := sandbox, sandboxId := iid }

/-- `getById` (lines 200-240): `none` stands for the JavaScript `null`
result; an error whose message includes "404" yields `null`, every other
caught error is re-raised wrapped. -/
def getById (readTokenFile : String → Except String TokenJson) (env : ProcEnv)
    (config : NamespaceConfig) (sandboxId : String) (fo : FetchOutcome) :
    Except String (Option SandboxPair) :=
  match getAndValidateCredentials readTokenFile env config with
  | Except.error e => Except.error e
  | Except.ok creds =>
    match getByIdAttempt creds.token config fo with
    | Except.ok pair => Except.ok (some pair)
    | Except.error e =>
      if includesStr e "404" then Except.ok none
      else Except.error ("Failed to get Namespace instance: " ++ e)

/-- The filter of `list` (line 256): a truthy id at the top level or
inside `metadata`. -/
def hasUsableId (e : InstanceData) : Bool :=
  jsStr e.instanceId != "" || jsStr (e.metadata.bind RespMetadata.instanceId) != ""

/-- The id `list` extracts (line 258): top-level id first, else the one in
`metadata`. -/
def pickInstanceId (e : InstanceData) : String :=
  jsOr (jsStr e.instanceId) (jsStr (e.metadata.bind RespMetadata.instanceId))

/-- The map of `list` (lines 257-274): one canonical record per entry. -/
def instanceDataToPair (token : String) (config : NamespaceConfig)
    (e : InstanceData) : SandboxPair :=
  let iid := pickInstanceId e
  let created := jsStr (e.metadata.bind RespMetadata.createdAt)
  { sandbox :=
      { instanceId := iid
        name := "instance-" ++ iid
        commandServiceEndpoint :=
          e.extendedMetadata.bind RespExtendedMetadata.commandServiceEndpoint
        token := token
        targetContainerName := jsOr (jsStr config.targetContainerName) "main-container"
        createdAt := if created ≠ "" then DateV.fromString created else DateV.epoch }
    sandboxId := iid }

/-- `list` (lines 242-280): an absent `instances` field becomes the empty
list; entries are filtered to those with a usable id and mapped; caught
errors are re-raised wrapped. -/
def list (readTokenFile : String → Except String TokenJson) (env : ProcEnv)
    (config : NamespaceConfig) (fo : FetchOutcome) :
    Except String (List SandboxPair) :=
  match getAndValidateCredentials readTokenFile env config with
  | Except.error e => Except.error e
  | Except.ok creds =>
    match fetchNamespace fo with
    | Except.error e => Except.error ("Failed to list Namespace instances: " ++ e)
    | Except.ok responseData =>
      let instances := responseData.instances.getD []
      Except.ok ((instances.filter hasUsableId).map (instanceDataToPair creds.token config))

/-- `destroy` (lines 282-303): credential resolution first, then the
remote call; a caught error or a truthy `error` field in the response is
only recorded as a warning (returned here as the list of warnings) and the
call returns normally. -/
def destroy (readTokenFile : String → Except String TokenJson) (env : ProcEnv)
    (config : NamespaceConfig) (sandboxId : String) (fo : FetchOutcome) :
    Except String (List String) :=
  match getAndValidateCredentials readTokenFile env config with
  | Except.error e => Except.error e
  | Except.ok _creds =>
    match fetchNamespace fo with
    | Except.error e => Except.ok ["Namespace destroy warning: " ++ e]
    | Except.ok data =>
      if jsStr data.error ≠ "" then
        Except.ok ["Namespace destroy warning: " ++ jsStr data.error]
      else
        Except.ok []

/-- `RunCommandOptions` as `runCommand` reads it: environment entries (in
insertion order, as JavaScript object entries are enumerated), working
directory, background flag. -/
structure RunCommandOptions where
  env : Option (List (String × String)) := none
  cwd : Option String := none
  background : Option Bool := none
deriving Repr, DecidableEq

/-- The single-quote character, spelled by code point. -/
def squote : String := String.mk [Char.ofNat 39]

/-- Characters that need no shell quoting. -/
def shellSafeChar (c : Char) : Bool :=
  c.isAlphanum || c ∈ ['_', '/', '.', '-', ':', '=', '@', '%', '+', ',']

/-- Modelled from the spec: `escapeShellArg` is imported from the provider
framework package, which is not under `src`; the spec says only that
environment values and the working-directory path are shell-escaped.  A
string of safe characters passes through unchanged; anything else is
single-quoted with embedded quotes escaped. -/
def escapeShellArg (s : String) : String :=
  if s ≠ "" ∧ s.toList.all shellSafeChar then s
  else squote ++ s.replace squote (squote ++ "\x5c" ++ squote ++ squote) ++ squote

/-- The `KEY=value` prefix built from the environment entries
(lines 319-321). -/
def envAssignments (l : List (String × String)) : String :=
  String.intercalate " " (l.map (fun kv => kv.fst ++ "=" ++ escapeShellArg kv.snd))

/-- Command composition of `runCommand` (lines 315-333): environment
prefix, then working-directory change, then background wrapping, each
applied only when present (and, for `cwd`, truthy). -/
def buildFullCommand (command : String) (options : Option RunCommandOptions) : String :=
  let fullCommand := command
  let fullCommand :=
    match options.bind RunCommandOptions.env with
    | some l => if 0 < l.length then envAssignments l ++ " " ++ fullCommand else fullCommand
    | none => fullCommand
  let fullCommand :=
    if jsStr (options.bind RunCommandOptions.cwd) ≠ "" then
      "cd " ++ escapeShellArg (jsStr (options.bind RunCommandOptions.cwd)) ++ " && " ++ fullCommand
    else fullCommand
  if (options.bind RunCommandOptions.background).getD false then
    "nohup " ++ fullCommand ++ " > /dev/null 2>&1 &"
  else fullCommand

/-- Body sent to the RunCommandSync endpoint (lines 341-347). -/
structure RunCommandRequest where
  instanceId : String
  targetContainerName : String
  command : List String
deriving Repr, DecidableEq

/-- The request `runCommand` sends: the composed string always runs as
`sh -c` against the record's target container. -/
def buildRunCommandRequest (sandbox : NamespaceSandbox) (command : String)
    (options : Option RunCommandOptions) : RunCommandRequest :=
  { instanceId := sandbox.instanceId
    targetContainerName := sandbox.targetContainerName
    command := ["sh", "-c", buildFullCommand command options] }

/-- `CommandResult` as `runCommand` returns it. -/
structure CommandResult where
  stdout : String
  stderr : String
  exitCode : Int
  durationMs : Nat
deriving Repr, DecidableEq

/-- `runCommand` (lines 306-381).  `fetchOracle` gives the HTTP layer's
outcome for the request actually sent; `durationMs` stands for the
measured wall-clock duration.  A record without a command service endpoint
raises before any remote call; a caught error is re-raised wrapped; on
success stdout/stderr are decoded and a missing exit code becomes `0`. -/
def runCommand (sandbox : NamespaceSandbox) (command : String)
    (options : Option RunCommandOptions)
    (fetchOracle : RunCommandRequest → FetchOutcome) (durationMs : Nat) :
    Except String CommandResult :=
  if jsStr sandbox.commandServiceEndpoint = "" then
    Except.error "Command service endpoint not available. The instance may not support command execution."
  else
    match fetchNamespace (fetchOracle (buildRunCommandRequest sandbox command options)) with
    | Except.ok result =>
      Except.ok
        { stdout := decodeBase64 result.stdout
          stderr := decodeBase64 result.stderr
          exitCode := result.exitCode.getD 0
          durationMs := durationMs }
    | Except.error e =>
      Except.error ("Namespace command execution failed: " ++ e)

/-- The `Runtime` argument of `runCode` (opaque to this module). -/
inductive Runtime where
  | node
  | python
deriving Repr, DecidableEq

/-- The `CodeResult` a successful `runCode` would return (it never does). -/
structure CodeResult where
  stdout : String
  stderr : String
  exitCode : Int
deriving Repr, DecidableEq

/-- `runCode` (lines 384-386): always raises, touching none of its
arguments and making no remote call (the signature takes no fetch
outcome). -/
def runCode (_sandbox : NamespaceSandbox) (_code : String)
    (_runtime : Option Runtime) (_config : Option NamespaceConfig) :
    Except String CodeResult :=
  Except.error "Namespace provider does not support runCode. Use runCommand instead."

/-- The options argument of `getUrl`. -/
structure GetUrlOptions where
  port : Nat
  protocol : Option String := none
deriving Repr, DecidableEq

/-- `getUrl` (lines 404-406): always raises, touching none of its
arguments and making no remote call. -/
def getUrl (_sandbox : NamespaceSandbox) (_options : GetUrlOptions) :
    Except String String :=
  Except.error "Namespace provider does not support getUrl."

/-- The machine shape block of a CreateInstance request (lines 149-154). -/
structure ShapeRequest where
  virtual_cpu : Nat
  memory_megabytes : Nat
  machine_arch : String
  os : String
deriving Repr, DecidableEq

/-- One container descriptor of a CreateInstance request (lines 155-162). -/
structure ContainerRequest where
  name : String
  image_ref : String
  args : List String
  environment : Option (List (String × String)) := none
deriving Repr, DecidableEq

/-- A CreateInstance request body (lines 148-165); the deadline is kept in
milliseconds since epoch. -/
structure CreateRequest where
  shape : ShapeRequest
  containers : List ContainerRequest
  documented_purpose : String
  deadlineMs : Nat
deriving Repr, DecidableEq

/-- The options `create` reads. -/
structure CreateSandboxOptions where
  image : Option String := none
  envs : Option (List (String × String)) := none
deriving Repr, DecidableEq

/-- The request body `create` builds (lines 143-165): every config field
is defaulted through JavaScript `||` (so `0` and `""` are replaced), but
the container image uses `??` and is defaulted only when absent; the envs
block is attached only when non-empty; the deadline is one hour after
`nowMs`. -/
def buildCreateRequest (config : NamespaceConfig)
    (options : Option CreateSandboxOptions) (nowMs : Nat) : CreateRequest :=
  let containerName := jsOr (jsStr config.targetContainerName) "main-container"
  { shape :=
      { virtual_cpu := jsOrNum config.virtualCpu 2
        memory_megabytes := jsOrNum config.memoryMegabytes 4096
        machine_arch := jsOr (jsStr config.machineArch) "amd64"
        os := jsOr (jsStr config.os) "linux" }
    containers :=
      [{ name := containerName
         image_ref := (options.bind CreateSandboxOptions.image).getD "ubuntu:latest"
         args := ["sleep", "infinity"]
         environment :=
           match options.bind CreateSandboxOptions.envs with
           | some l => if 0 < l.length then some l else none
           | none => none }]
    documented_purpose := jsOr (jsStr config.documentedPurpose) "ComputeSDK sandbox"
    deadlineMs := nowMs + 60 * 60 * 1000 }

/-- A token-file oracle for a machine with no readable token file. -/
def readNoFile : String → Except String TokenJson := fun _ => Except.error "ENOENT"

/-- A concrete sandbox record used on concrete runs. -/
def sbx1 : NamespaceSandbox :=
  { instanceId := "inst-1"
    name := "instance-inst-1"
    commandServiceEndpoint := some "https://cmd.example"
    token := "tok"
    targetContainerName := "main-container"
    createdAt := DateV.epoch }

/-- An HTTP 404 not-found condition: a non-ok response with status 404. -/
def isHttp404 : FetchOutcome → Bool
  | FetchOutcome.response ok status _ _ => !ok && status == 404
  | _ => false

/-- Response body of a successful HTTP call whose application-level error
text happens to contain the characters "404". -/
def resp404text : ResponseData := { error := some "instance lookup failed at shard 404" }

/-- A list response with one entry lacking ids everywhere, one entry with
a top-level id and one entry with an id only inside metadata. -/
def respThree : ResponseData :=
  { instances := some
      [{}, { instanceId := some "i2" },
        { metadata := some { instanceId := some "i3" } }] }

/-- A config whose defaultable fields all hold falsy (zero / empty-string)
values. -/
def cfgFalsy (t tf dr : Option String) : NamespaceConfig :=
  { token := t, tokenFile := tf, virtualCpu := some 0, memoryMegabytes := some 0,
    machineArch := some "", os := some "", documentedPurpose := some "",
    destroyReason := dr, targetContainerName := some "" }

/-- Claim C1: destroy never raises — once credentials resolve, every
transport/API exception raised during the call and every application-level
error field in the response is captured and only logged as a warning, and
the call returns normally (here: with its list of logged warnings). -/
theorem destroy_never_raises
    (readTokenFile : String → Except String TokenJson) (env : ProcEnv)
    (config : NamespaceConfig) (sandboxId : String) (fo : FetchOutcome)
    (creds : Credentials)
    (hc : getAndValidateCredentials readTokenFile env config = Except.ok creds) :
    (∃ warnings, destroy readTokenFile env config sandboxId fo = Except.ok warnings)
    ∧ (∀ e, fetchNamespace fo = Except.error e →
        destroy readTokenFile env config sandboxId fo =
          Except.ok ["Namespace destroy warning: " ++ e]) := by
  have hd : destroy readTokenFile env config sandboxId fo =
      match fetchNamespace fo with
      | Except.error e => Except.ok ["Namespace destroy warning: " ++ e]
      | Except.ok data =>
        if jsStr data.error ≠ "" then
          Except.ok ["Namespace destroy warning: " ++ jsStr data.error]
        else Except.ok [] := by
    unfold destroy
    rw [hc]
  constructor
  · rw [hd]
    cases fetchNamespace fo with
    | error e => exact ⟨_, rfl⟩
    | ok data =>
      show ∃ warnings,
        (if jsStr data.error ≠ "" then
            Except.ok ["Namespace destroy warning: " ++ jsStr data.error]
          else Except.ok ([] : List String)) = Except.ok warnings
      split
      · exact ⟨_, rfl⟩
      · exact ⟨_, rfl⟩
  · intro e he
    rw [hd, he]

/-- Witness for C1: a config whose credentials resolve, a torn-down
network; destroy still returns normally and logs the warning. -/
theorem destroy_never_raises_witness :
    destroy readNoFile {} { token := some "tok" } "sb-1"
      (FetchOutcome.networkError "connection reset") =
      Except.ok ["Namespace destroy warning: " ++ "connection reset"] :=
  (destroy_never_raises readNoFile {} { token := some "tok" } "sb-1"
    (FetchOutcome.networkError "connection reset") { token := "tok" } (by rfl)).2
    "connection reset" (by rfl)

/-- Claim C2 counterexample: with env FOO=bar and cwd /tmp, the string
sent to the remote endpoint is "cd /tmp && FOO=bar echo hi" — the
working-directory change comes first, so "FOO=bar" does NOT occur before
"cd", contrary to the claimed order. -/
theorem runCommand_claimed_compose_order_false :
    (buildRunCommandRequest sbx1 "echo hi"
        (some { env := some [("FOO", "bar")], cwd := some "/tmp" })).command =
      ["sh", "-c", "cd /tmp && FOO=bar echo hi"]
    ∧ occursBefore "cd /tmp && FOO=bar echo hi" "FOO=bar" "cd" = false := by
  exact ⟨rfl, rfl⟩

/-- Claim C2 (amended): with env FOO=bar and cwd /tmp the composed string
sent to the remote endpoint is the working-directory change first, then
the FOO=bar assignment, then the original command:
cd /tmp && FOO=bar <command>. -/
theorem runCommand_compose_order (sandbox : NamespaceSandbox) (command : String) :
    (buildRunCommandRequest sandbox command
        (some { env := some [("FOO", "bar")], cwd := some "/tmp" })).command =
      ["sh", "-c", "cd /tmp && FOO=bar " ++ command] := by
  show ["sh", "-c",
      (("cd " ++ escapeShellArg "/tmp") ++ " && ") ++
        ((envAssignments [("FOO", "bar")] ++ " ") ++ command)] = _
  rw [← String.append_assoc]
  congr 1

/-- Claim C3: credential resolution tries config.token, then NSC_TOKEN,
then a token file named by config.tokenFile or NSC_TOKEN_FILE, taking the
first non-empty result; it fails when the token file lacks a bearer_token
and when all three sources are empty. -/
theorem credential_resolution
    (readTokenFile : String → Except String TokenJson) (env : ProcEnv)
    (config : NamespaceConfig) :
    (jsOr (jsStr config.token) (jsStr env.NSC_TOKEN) ≠ "" →
      getAndValidateCredentials readTokenFile env config =
        Except.ok { token := jsOr (jsStr config.token) (jsStr env.NSC_TOKEN) })
    ∧ (∀ tf b, jsStr config.token = "" → jsStr env.NSC_TOKEN = "" →
        jsOr (jsStr config.tokenFile) (jsStr env.NSC_TOKEN_FILE) = tf → tf ≠ "" →
        readTokenFile tf = Except.ok { bearer_token := some b } → b ≠ "" →
        getAndValidateCredentials readTokenFile env config =
          Except.ok { token := b })
    ∧ (∀ tf j, jsStr config.token = "" → jsStr env.NSC_TOKEN = "" →
        jsOr (jsStr config.tokenFile) (jsStr env.NSC_TOKEN_FILE) = tf → tf ≠ "" →
        readTokenFile tf = Except.ok j → jsStr j.bearer_token = "" →
        getAndValidateCredentials readTokenFile env config =
          Except.error ("Token file " ++ tf ++ " does not contain a bearer_token"))
    ∧ (jsStr config.token = "" → jsStr env.NSC_TOKEN = "" →
        jsStr config.tokenFile = "" → jsStr env.NSC_TOKEN_FILE = "" →
        getAndValidateCredentials readTokenFile env config =
          Except.error missingTokenMsg) := by
  refine ⟨?_, ?_, ?_, ?_⟩
  · intro h
    simp [getAndValidateCredentials, h]
  · intro tf b h1 h2 htf htfne hread hb
    have h0 : jsOr (jsStr config.token) (jsStr env.NSC_TOKEN) = "" := by
      rw [h1, h2]; rfl
    have hb2 : jsStr (some b) = b := rfl
    simp [getAndValidateCredentials, loadTokenFromFile, h0, htf, htfne, hread, hb2, hb]
  · intro tf j h1 h2 htf htfne hread hbad
    have h0 : jsOr (jsStr config.token) (jsStr env.NSC_TOKEN) = "" := by
      rw [h1, h2]; rfl
    simp [getAndValidateCredentials, loadTokenFromFile, h0, htf, htfne, hread, hbad]
  · intro h1 h2 h3 h4
    have h0 : jsOr (jsStr config.token) (jsStr env.NSC_TOKEN) = "" := by
      rw [h1, h2]; rfl
    have h34 : jsOr (jsStr config.tokenFile) (jsStr env.NSC_TOKEN_FILE) = "" := by
      rw [h3, h4]; rfl
    simp [getAndValidateCredentials, h0, h34]

/-- Witness for C3 at concrete inputs: a token file without bearer_token
fails with the configuration error, and with every source empty resolution
fails with the missing-token configuration error. -/
theorem credential_resolution_witness :
    getAndValidateCredentials (fun _ => Except.ok { bearer_token := none })
        { NSC_TOKEN_FILE := some "/nsc/token.json" } {} =
      Except.error
        ("Token file " ++ "/nsc/token.json" ++ " does not contain a bearer_token")
    ∧ getAndValidateCredentials readNoFile {} {} = Except.error missingTokenMsg := by
  constructor
  · exact (credential_resolution (fun _ => Except.ok { bearer_token := none })
        { NSC_TOKEN_FILE := some "/nsc/token.json" } {}).2.2.1
      "/nsc/token.json" { bearer_token := none } rfl rfl rfl (by decide) rfl rfl
  · exact (credential_resolution readNoFile {} {}).2.2.2 rfl rfl rfl rfl

/-- Claim C4 counterexample: a successful HTTP response (ok, status 200 —
not an HTTP 404 not-found condition) carrying an application-level error
whose text contains "404": an error is raised during the call, yet getById
swallows it and returns null instead of propagating it. -/
theorem getById_swallows_non404_error :
    isHttp404 (FetchOutcome.response true 200 "OK" resp404text) = false
    ∧ fetchNamespace (FetchOutcome.response true 200 "OK" resp404text) =
        Except.error "Namespace API error: instance lookup failed at shard 404"
    ∧ getById readNoFile {} { token := some "tok" } "sb-1"
        (FetchOutcome.response true 200 "OK" resp404text) = Except.ok none :=
  ⟨rfl, rfl, rfl⟩

/-- Helper shared by the getById error-policy theorems: once credentials
resolve, a failing remote call makes getById return null exactly when the
error message contains "404", and otherwise the wrapped error. -/
theorem getById_fetch_error_eq
    (readTokenFile : String → Except String TokenJson) (env : ProcEnv)
    (config : NamespaceConfig) (sandboxId : String) (fo : FetchOutcome)
    (creds : Credentials) (m : String)
    (hc : getAndValidateCredentials readTokenFile env config = Except.ok creds)
    (hf : fetchNamespace fo = Except.error m) :
    getById readTokenFile env config sandboxId fo =
      if includesStr m "404" then Except.ok none
      else Except.error ("Failed to get Namespace instance: " ++ m) := by
  unfold getById
  rw [hc]
  show (match getByIdAttempt creds.token config fo with
    | Except.ok pair => Except.ok (some pair)
    | Except.error e =>
      if includesStr e "404" then Except.ok none
      else Except.error ("Failed to get Namespace instance: " ++ e)) = _
  unfold getByIdAttempt
  rw [hf]

/-- Claim C4 (amended): getById returns null whenever the caught error's
message contains "404" — which covers every HTTP 404 not-found failure —
and every other error raised during the call (one whose message does not
contain "404") propagates to the caller wrapped as a get failure. -/
theorem getById_404_policy
    (readTokenFile : String → Except String TokenJson) (env : ProcEnv)
    (config : NamespaceConfig) (sandboxId : String) (fo : FetchOutcome)
    (creds : Credentials) (m : String)
    (hc : getAndValidateCredentials readTokenFile env config = Except.ok creds)
    (hf : fetchNamespace fo = Except.error m) :
    (includesStr m "404" = true →
      getById readTokenFile env config sandboxId fo = Except.ok none)
    ∧ (includesStr m "404" = false →
      getById readTokenFile env config sandboxId fo =
        Except.error ("Failed to get Namespace instance: " ++ m)) := by
  have hg := getById_fetch_error_eq readTokenFile env config sandboxId fo creds m hc hf
  constructor
  · intro h
    rw [hg, if_pos h]
  · intro h
    rw [hg]
    simp [h]

/-- Witness for C4 (amended) at an HTTP 404 response: getById yields null. -/
theorem getById_404_policy_witness :
    getById readNoFile {} { token := some "tok" } "sb-1"
      (FetchOutcome.response false 404 "Not Found" {}) = Except.ok none :=
  (getById_404_policy readNoFile {} { token := some "tok" } "sb-1"
    (FetchOutcome.response false 404 "Not Found" {}) { token := "tok" }
    ("Namespace API error: " ++ toString 404 ++ " " ++ "Not Found")
    (by rfl) (by rfl)).1 (by rfl)

/-- Claim C10: getById's not-found detection is a substring test on the
caught error's message: any error whose message contains "404" — also an
application-level error raised from inside a successful HTTP response —
makes getById return null instead of propagating the error. -/
theorem getById_404_is_substring_test
    (readTokenFile : String → Except String TokenJson) (env : ProcEnv)
    (config : NamespaceConfig) (sandboxId : String) (fo : FetchOutcome)
    (creds : Credentials) (m : String)
    (hc : getAndValidateCredentials readTokenFile env config = Except.ok creds)
    (hf : fetchNamespace fo = Except.error m)
    (h404 : includesStr m "404" = true) :
    getById readTokenFile env config sandboxId fo = Except.ok none := by
  rw [getById_fetch_error_eq readTokenFile env config sandboxId fo creds m hc hf,
    if_pos h404]

/-- Witness for C10 at a successful HTTP response whose application error
text contains "404": getById yields null rather than the error. -/
theorem getById_404_is_substring_test_witness :
    getById readNoFile {} { token := some "tok" } "sb-1"
      (FetchOutcome.response true 200 "OK"
        { error := some "deadline exceeded after 404 ms" }) = Except.ok none :=
  getById_404_is_substring_test readNoFile {} { token := some "tok" } "sb-1"
    (FetchOutcome.response true 200 "OK"
      { error := some "deadline exceeded after 404 ms" })
    { token := "tok" } ("Namespace API error: " ++ "deadline exceeded after 404 ms")
    (by rfl) (by rfl) (by rfl)

/-- Claim C5: stdout and stderr of a runCommand response are each
base64-decoded independently; "aGVsbG8=" decodes to "hello"; a payload
value that is not valid base64 is returned verbatim in the result rather
than raising. -/
theorem runCommand_decodes_base64
    (sandbox : NamespaceSandbox) (command : String)
    (options : Option RunCommandOptions)
    (fetchOracle : RunCommandRequest → FetchOutcome) (durationMs : Nat)
    (hep : jsStr sandbox.commandServiceEndpoint ≠ "") :
    (∀ result,
      fetchNamespace (fetchOracle (buildRunCommandRequest sandbox command options)) =
        Except.ok result →
      runCommand sandbox command options fetchOracle durationMs =
        Except.ok
          { stdout := decodeBase64 result.stdout
            stderr := decodeBase64 result.stderr
            exitCode := result.exitCode.getD 0
            durationMs := durationMs })
    ∧ decodeBase64 (some "aGVsbG8=") = "hello"
    ∧ (∀ d, b64DecodeStr d = none → decodeBase64 (some d) = d) := by
  refine ⟨?_, rfl, ?_⟩
  · intro result hr
    unfold runCommand
    rw [if_neg hep, hr]
  · intro d hd
    by_cases hd0 : d = ""
    · subst hd0
      exact absurd hd (by decide)
    · unfold decodeBase64
      have hjs : jsStr (some d) = d := rfl
      rw [hjs, if_neg hd0, hd]

/-- Witness for C5 at a concrete response: valid base64 stdout decodes,
invalid base64 stderr is passed through verbatim. -/
theorem runCommand_decodes_base64_witness :
    runCommand sbx1 "cat out" none
      (fun _ => FetchOutcome.response true 200 "OK"
        { stdout := some "aGVsbG8=", stderr := some "%%%" }) 5 =
      Except.ok
        { stdout := decodeBase64 (some "aGVsbG8=")
          stderr := decodeBase64 (some "%%%")
          exitCode := (none : Option Int).getD 0
          durationMs := 5 } :=
  (runCommand_decodes_base64 sbx1 "cat out" none
    (fun _ => FetchOutcome.response true 200 "OK"
      { stdout := some "aGVsbG8=", stderr := some "%%%" }) 5 (by decide)).1
    { stdout := some "aGVsbG8=", stderr := some "%%%" } (by rfl)

/-- Mapping after a boolean filter is the same as a filterMap that guards
on the predicate. -/
theorem map_filter_eq_filterMap {α β : Type} (p : α → Bool) (f : α → β) :
    ∀ l : List α,
      (l.filter p).map f = l.filterMap (fun e => if p e then some (f e) else none)
  | [] => rfl
  | a :: l => by
    by_cases h : p a
    · simp [List.filter_cons, List.filterMap_cons, h, map_filter_eq_filterMap p f l]
    · simp [List.filter_cons, List.filterMap_cons, h, map_filter_eq_filterMap p f l]

/-- Claim C6: list excludes every entry lacking an instance identifier in
both known payload locations, maps each entry carrying one into exactly
one canonical record (in order), and an empty remote result yields an
empty list, not an error. -/
theorem list_filters_and_maps
    (readTokenFile : String → Except String TokenJson) (env : ProcEnv)
    (config : NamespaceConfig) (fo : FetchOutcome)
    (creds : Credentials) (responseData : ResponseData)
    (hc : getAndValidateCredentials readTokenFile env config = Except.ok creds)
    (hf : fetchNamespace fo = Except.ok responseData) :
    ∃ out, list readTokenFile env config fo = Except.ok out
      ∧ out.map SandboxPair.sandboxId =
          (responseData.instances.getD []).filterMap
            (fun e => if hasUsableId e then some (pickInstanceId e) else none)
      ∧ out.length = ((responseData.instances.getD []).filter hasUsableId).length
      ∧ (responseData.instances.getD [] = [] → out = []) := by
  have hl : list readTokenFile env config fo =
      Except.ok (((responseData.instances.getD []).filter hasUsableId).map
        (instanceDataToPair creds.token config)) := by
    unfold list
    rw [hc]
    show (match fetchNamespace fo with
      | Except.error e => Except.error ("Failed to list Namespace instances: " ++ e)
      | Except.ok responseData =>
        Except.ok (((responseData.instances.getD []).filter hasUsableId).map
          (instanceDataToPair creds.token config))) = _
    rw [hf]
  refine ⟨_, hl, ?_, ?_, ?_⟩
  · rw [List.map_map]
    have hcomp : SandboxPair.sandboxId ∘ instanceDataToPair creds.token config =
        pickInstanceId := rfl
    rw [hcomp, map_filter_eq_filterMap]
  · rw [List.length_map]
  · intro h
    rw [h]
    rfl

/-- Witness for C6 at a concrete three-entry response. -/
theorem list_filters_and_maps_witness :
    ∃ out, list readNoFile {} { token := some "tok" }
        (FetchOutcome.response true 200 "OK" respThree) = Except.ok out
      ∧ out.map SandboxPair.sandboxId =
          (respThree.instances.getD []).filterMap
            (fun e => if hasUsableId e then some (pickInstanceId e) else none)
      ∧ out.length = ((respThree.instances.getD []).filter hasUsableId).length
      ∧ (respThree.instances.getD [] = [] → out = []) :=
  list_filters_and_maps readNoFile {} { token := some "tok" }
    (FetchOutcome.response true 200 "OK" respThree) { token := "tok" } respThree
    (by rfl) (by rfl)

/-- Claim C7: a response payload without an exit code yields exitCode 0; a
present (possibly nonzero) exit code is returned as data, never raised;
a transport/API failure during the call is wrapped and re-raised as a
command-execution failure. -/
theorem runCommand_exit_code_policy
    (sandbox : NamespaceSandbox) (command : String)
    (options : Option RunCommandOptions)
    (fetchOracle : RunCommandRequest → FetchOutcome) (durationMs : Nat)
    (hep : jsStr sandbox.commandServiceEndpoint ≠ "") :
    (∀ result,
      fetchNamespace (fetchOracle (buildRunCommandRequest sandbox command options)) =
        Except.ok result →
      result.exitCode = none →
      ∃ r, runCommand sandbox command options fetchOracle durationMs = Except.ok r
        ∧ r.exitCode = 0)
    ∧ (∀ result n,
      fetchNamespace (fetchOracle (buildRunCommandRequest sandbox command options)) =
        Except.ok result →
      result.exitCode = some n →
      ∃ r, runCommand sandbox command options fetchOracle durationMs = Except.ok r
        ∧ r.exitCode = n)
    ∧ (∀ m,
      fetchNamespace (fetchOracle (buildRunCommandRequest sandbox command options)) =
        Except.error m →
      runCommand sandbox command options fetchOracle durationMs =
        Except.error ("Namespace command execution failed: " ++ m)) := by
  refine ⟨?_, ?_, ?_⟩
  · intro result hr hn
    have heq : runCommand sandbox command options fetchOracle durationMs =
        Except.ok
          { stdout := decodeBase64 result.stdout
            stderr := decodeBase64 result.stderr
            exitCode := result.exitCode.getD 0
            durationMs := durationMs } := by
      unfold runCommand
      rw [if_neg hep, hr]
    exact ⟨_, heq, by show result.exitCode.getD 0 = 0; rw [hn]; rfl⟩
  · intro result n hr hn
    have heq : runCommand sandbox command options fetchOracle durationMs =
        Except.ok
          { stdout := decodeBase64 result.stdout
            stderr := decodeBase64 result.stderr
            exitCode := result.exitCode.getD 0
            durationMs := durationMs } := by
      unfold runCommand
      rw [if_neg hep, hr]
    exact ⟨_, heq, by show result.exitCode.getD 0 = n; rw [hn]; rfl⟩
  · intro m hm
    unfold runCommand
    rw [if_neg hep, hm]

/-- Witness for C7 at a response with no exit code: the result reports
exit code 0. -/
theorem runCommand_exit_code_policy_witness :
    ∃ r, runCommand sbx1 "true" none
        (fun _ => FetchOutcome.response true 200 "OK" {}) 7 = Except.ok r
      ∧ r.exitCode = 0 :=
  (runCommand_exit_code_policy sbx1 "true" none
    (fun _ => FetchOutcome.response true 200 "OK" {}) 7 (by decide)).1
    {} (by rfl) rfl

/-- Claim C8: runCode and getUrl fail immediately with the unsupported
operation error, whatever their arguments, and take no fetch outcome at
all (no remote call is modelled in their signatures). -/
theorem unsupported_operations (sandbox : NamespaceSandbox) (code : String)
    (runtime : Option Runtime) (config : Option NamespaceConfig)
    (options : GetUrlOptions) :
    runCode sandbox code runtime config =
      Except.error "Namespace provider does not support runCode. Use runCommand instead."
    ∧ getUrl sandbox options =
      Except.error "Namespace provider does not support getUrl." :=
  ⟨rfl, rfl⟩

/-- Claim C9: in create, the container image default is nullish-only: an
empty-string image stays the empty string in the request, while the
machine-shape, purpose and container-name defaults do replace
empty-string and zero config values; an absent image (in options or with
no options at all) still gets the default. -/
theorem create_image_default_is_nullish
    (t tf dr : Option String) (envs : Option (List (String × String))) (nowMs : Nat) :
    (buildCreateRequest (cfgFalsy t tf dr) (some { image := some "", envs := envs })
        nowMs).containers.map ContainerRequest.image_ref = [""]
    ∧ (buildCreateRequest (cfgFalsy t tf dr) (some { image := none, envs := envs })
        nowMs).containers.map ContainerRequest.image_ref = ["ubuntu:latest"]
    ∧ (buildCreateRequest (cfgFalsy t tf dr) none nowMs).containers.map
        ContainerRequest.image_ref = ["ubuntu:latest"]
    ∧ (buildCreateRequest (cfgFalsy t tf dr) (some { image := some "", envs := envs })
        nowMs).shape =
      { virtual_cpu := 2, memory_megabytes := 4096, machine_arch := "amd64", os := "linux" }
    ∧ (buildCreateRequest (cfgFalsy t tf dr) (some { image := some "", envs := envs })
        nowMs).documented_purpose = "ComputeSDK sandbox"
    ∧ (buildCreateRequest (cfgFalsy t tf dr) (some { image := some "", envs := envs })
        nowMs).containers.map ContainerRequest.name = ["main-container"] :=
  ⟨rfl, rfl, rfl, rfl, rfl, rfl⟩
